import Mathlib

/-!
Verification of the KKW multi-domain pump diagnosis engine (src/app.py).

All Python floats are modelled as exact rationals (`ℚ`); every threshold test in the
source is an exact comparison, so no floating-point subtlety is lost.  Python `int()`
(truncation toward zero) is `pytrunc`.  Python dictionaries are association lists in
insertion order; `dict.get(k, d)` is an association lookup with a default, and Python
truthiness of a stored number is "present and nonzero".  Fallible operations (Python
`max` on an empty sequence) are `Except`-valued.
-/

namespace KKW

/-- Truncation toward zero: the behaviour of Python `int()` applied to a float value. -/
def pytrunc (q : ℚ) : ℤ := if 0 ≤ q then ⌊q⌋ else ⌈q⌉

/-- Severity levels, totally ordered Low < Medium < High. -/
inductive Sev where
  | Low
  | Medium
  | High
deriving DecidableEq

/-- Numeric rank of a severity in the order Low < Medium < High. -/
def Sev.rank : Sev → ℕ
  | .Low => 0
  | .Medium => 1
  | .High => 2

/-- The maximum of two severities in the order Low < Medium < High. -/
def sevMax (a b : Sev) : Sev := if a.rank ≤ b.rank then b else a

/-- The four bearing-temperature locations (the fixed 4-point temperature schema). -/
inductive TLoc where
  | Pump_DE
  | Pump_NDE
  | Motor_DE
  | Motor_NDE
deriving DecidableEq

/-- Rendering of a temperature location, as the dictionary key string of the source. -/
def TLoc.toKey : TLoc → String
  | .Pump_DE => "Pump_DE"
  | .Pump_NDE => "Pump_NDE"
  | .Motor_DE => "Motor_DE"
  | .Motor_NDE => "Motor_NDE"

/-- A bearing-temperature dictionary: association list in insertion order.
A value of 0 is the valid "not measured" sentinel of the source. -/
def TempMap : Type := List (TLoc × ℚ)

/-- Python `temp_dict.get(key)`: `none` when the key is absent. -/
def dget : List (TLoc × ℚ) → TLoc → Option ℚ
  | [], _ => none
  | (k, v) :: rest, key => if k = key then some v else dget rest key

/-- Python truthiness of `temp_dict.get(key)`: the key is present and its value nonzero. -/
def dtruthy (d : List (TLoc × ℚ)) (k : TLoc) : Bool :=
  match dget d k with
  | some t => decide (t ≠ 0)
  | none => false

/-- Constant `BEARING_TEMP_LIMITS["normal_max"]` of src/app.py. -/
def BEARING_TEMP_normal_max : ℚ := 70

/-- Constant `BEARING_TEMP_LIMITS["elevated_max"]` of src/app.py. -/
def BEARING_TEMP_elevated_max : ℚ := 80

/-- Constant `BEARING_TEMP_LIMITS["warning_max"]` of src/app.py. -/
def BEARING_TEMP_warning_max : ℚ := 90

/-- Constant `BEARING_TEMP_LIMITS["critical_min"]` of src/app.py. -/
def BEARING_TEMP_critical_min : ℚ := 90

/-- Constant `BEARING_TEMP_LIMITS["delta_threshold"]` of src/app.py. -/
def BEARING_TEMP_delta_threshold : ℚ := 15

/-- Function `get_temperature_status` from src/app.py: classifies one bearing temperature into
(status, colour, severity level).  A temperature of 0 (or `None`, impossible for a
stored number here) is "not measured". -/
def get_temperature_status (t : ℚ) : String × String × ℕ :=
  if t = 0 then ("N/A", "⚪", 0)
  else if t < BEARING_TEMP_normal_max then ("Normal", "🟢", 0)
  else if t < BEARING_TEMP_elevated_max then ("Elevated", "🟡", 0)
  else if t < BEARING_TEMP_warning_max then ("Warning", "🟠", 1)
  else ("Critical", "🔴", 2)

/-- One iteration of the per-location loop of `calculate_temperature_confidence_adjustment`
(src/app.py lines 247-270): skip absent/zero temperatures, then adjust by bucket. -/
def tempAdjStep (diagnosis_consistent : Bool) (st : ℤ × List String) (item : TLoc × ℚ) :
    ℤ × List String :=
  let location := item.1
  let temp := item.2
  if temp = 0 then st
  else
    let status := (get_temperature_status temp).1
    if status = "Critical" then
      if diagnosis_consistent then
        (st.1 + 20, st.2 ++ ["⚠️ " ++ location.toKey ++ ": " ++ toString temp ++
          "°C (Critical) - Strong thermal confirmation"])
      else
        (st.1 - 10, st.2 ++ ["⚠️ " ++ location.toKey ++ ": " ++ toString temp ++
          "°C (Critical) - Review required"])
    else if status = "Warning" then
      if diagnosis_consistent then
        (st.1 + 15, st.2 ++ ["⚠️ " ++ location.toKey ++ ": " ++ toString temp ++
          "°C (Warning) - Thermal confirmation"])
      else
        (st.1 - 5, st.2 ++ ["⚠️ " ++ location.toKey ++ ": " ++ toString temp ++
          "°C (Warning) - Monitor closely"])
    else if status = "Elevated" then
      if diagnosis_consistent then
        (st.1 + 10, st.2 ++ ["📈 " ++ location.toKey ++ ": " ++ toString temp ++
          "°C (Elevated) - Early thermal indication"])
      else
        (st.1, st.2 ++ ["📈 " ++ location.toKey ++ ": " ++ toString temp ++
          "°C (Elevated) - Monitor trend"])
    else st

/-- Function `calculate_temperature_confidence_adjustment` from src/app.py (lines 243-289):
bucket adjustments per present temperature, ΔT analysis, and the final clamp of the
total adjustment to [-10, 20].  Returns (clamped adjustment, notes). -/
def calculate_temperature_confidence_adjustment (temp_dict : List (TLoc × ℚ))
    (diagnosis_consistent : Bool) : ℤ × List String :=
  let st0 := temp_dict.foldl (tempAdjStep diagnosis_consistent) (0, [])
  let st1 :=
    if dtruthy temp_dict .Pump_DE && dtruthy temp_dict .Pump_NDE then
      let delta_pump := |(dget temp_dict .Pump_DE).getD 0 - (dget temp_dict .Pump_NDE).getD 0|
      if BEARING_TEMP_delta_threshold < delta_pump then
        (st0.1 + 5, st0.2 ++ ["🔍 Pump DE-NDE ΔT: " ++ toString delta_pump ++
          "°C (>15°C) - Localized fault indicated"])
      else st0
    else st0
  let st2 :=
    if dtruthy temp_dict .Motor_DE && dtruthy temp_dict .Motor_NDE then
      let delta_motor := |(dget temp_dict .Motor_DE).getD 0 - (dget temp_dict .Motor_NDE).getD 0|
      if BEARING_TEMP_delta_threshold < delta_motor then
        (st1.1 + 5, st1.2 ++ ["🔍 Motor DE-NDE ΔT: " ++ toString delta_motor ++
          "°C (>15°C) - Localized fault indicated"])
      else st1
    else st1
  let st3 :=
    if dtruthy temp_dict .Motor_DE && dtruthy temp_dict .Pump_DE then
      if (dget temp_dict .Pump_DE).getD 0 + 10 < (dget temp_dict .Motor_DE).getD 0 then
        (st2.1, st2.2 ++ ["⚡ Motor DE > Pump DE - Possible electrical origin"])
      else st2
    else st2
  (min 20 (max (-10) st3.1), st3.2)

/-- The record returned by `calculate_hydraulic_parameters`. -/
structure HydParams where
  delta_p_bar : ℚ
  head_m : ℚ
  hydraulic_power_kw : ℚ
  efficiency_percent : ℚ
deriving DecidableEq

/-- Python division: raises `ZeroDivisionError` on a zero denominator. -/
def pydiv (a b : ℚ) : Except String ℚ :=
  if b = 0 then Except.error "division by zero" else Except.ok (a / b)

/-- Function `calculate_hydraulic_parameters` from src/app.py (lines 295-307).  Every division in
the source is guarded (`sg > 0`, `motor_power > 0`); the `Except` layer records where a
Python division could in principle raise, so totality is a theorem, not an assumption. -/
def calculate_hydraulic_parameters (suction_pressure discharge_pressure flow_rate
    motor_power sg : ℚ) : Except String HydParams :=
  let delta_p := discharge_pressure - suction_pressure
  match (if 0 < sg then pydiv (delta_p * 10.2) sg else Except.ok 0) with
  | Except.error e => Except.error e
  | Except.ok head =>
    match (if 0 < flow_rate ∧ 0 < head then pydiv (flow_rate * head * sg * 9.81) 3600
        else Except.ok 0) with
    | Except.error e => Except.error e
    | Except.ok hydraulic_power =>
      match (if 0 < motor_power then
          match pydiv hydraulic_power motor_power with
          | Except.error e => Except.error e
          | Except.ok q => Except.ok (q * 100)
        else Except.ok 0) with
      | Except.error e => Except.error e
      | Except.ok efficiency =>
        Except.ok { delta_p_bar := delta_p, head_m := head,
                    hydraulic_power_kw := hydraulic_power,
                    efficiency_percent := efficiency }

/-- The deviations dictionary built by `classify_hydraulic_performance`; fields the
source leaves out of the Python dict are `none`. -/
structure Devs where
  head_dev : Option ℚ
  eff_dev : Option ℚ
  flow_dev : Option ℚ
deriving DecidableEq

/-- Function `classify_hydraulic_performance` from src/app.py (lines 309-324). -/
def classify_hydraulic_performance (head_aktual head_design efficiency_aktual
    efficiency_bep flow_aktual flow_design : ℚ) : String × Devs :=
  let dev_head := if 0 < head_design then (head_aktual - head_design) / head_design * 100 else 0
  let dev_eff :=
    if 0 < efficiency_bep then (efficiency_aktual - efficiency_bep) / efficiency_bep * 100 else 0
  let dev_flow := if 0 < flow_design then (flow_aktual - flow_design) / flow_design * 100 else 0
  if dev_head < -5 ∧ dev_eff < -5 then
    ("UNDER_PERFORMANCE", ⟨some dev_head, some dev_eff, none⟩)
  else if 5 < dev_head ∧ dev_flow < -5 then
    ("OVER_RESISTANCE", ⟨some dev_head, none, some dev_flow⟩)
  else if dev_eff < -10 ∧ |dev_head| ≤ 5 then
    ("EFFICIENCY_DROP", ⟨none, some dev_eff, none⟩)
  else if |dev_head| ≤ 5 ∧ |dev_eff| ≤ 5 ∧ |dev_flow| ≤ 5 then
    ("NORMAL", ⟨some dev_head, some dev_eff, some dev_flow⟩)
  else
    ("MIXED_DEVIATION", ⟨some dev_head, some dev_eff, some dev_flow⟩)

/-- The record returned by `calculate_electrical_parameters`. -/
structure ElecParams where
  v_avg : ℚ
  i_avg : ℚ
  voltage_unbalance_percent : ℚ
  current_unbalance_percent : ℚ
  load_estimate_percent : ℚ
  voltage_within_tolerance : Bool
deriving DecidableEq

/-- The unbalance computation of `calculate_electrical_parameters` (src/app.py lines
335-339), identical for the voltage and the current triple: maximum absolute deviation
from the three-phase average as a percentage of that average, 0 when the average is not
positive. -/
def unbalancePercent (x1 x2 x3 : ℚ) : ℚ :=
  let avg := (x1 + x2 + x3) / 3
  let devmax := max |x1 - avg| (max |x2 - avg| |x3 - avg|)
  if 0 < avg then devmax / avg * 100 else 0

/-- Function `calculate_electrical_parameters` from src/app.py (lines 330-354).  The tolerance
check divides by `rated_voltage` unguarded exactly as the source does; in `ℚ` a zero
rated voltage yields 0 where Python would raise, a case no claim touches. -/
def calculate_electrical_parameters (v_l1l2 v_l2l3 v_l3l1 i_l1 i_l2 i_l3
    rated_voltage fla : ℚ) : ElecParams :=
  let v_avg := (v_l1l2 + v_l2l3 + v_l3l1) / 3
  let i_avg := (i_l1 + i_l2 + i_l3) / 3
  let load_estimate := if 0 < fla then i_avg / fla * 100 else 0
  { v_avg := v_avg
    i_avg := i_avg
    voltage_unbalance_percent := unbalancePercent v_l1l2 v_l2l3 v_l3l1
    current_unbalance_percent := unbalancePercent i_l1 i_l2 i_l3
    load_estimate_percent := load_estimate
    voltage_within_tolerance :=
      decide ((90 : ℚ) ≤ v_avg / rated_voltage * 100) &&
        decide (v_avg / rated_voltage * 100 ≤ (110 : ℚ)) }

/-- Machine part of a mechanical measurement-point key. -/
inductive Machine where
  | Pump
  | Motor
deriving DecidableEq

/-- Bearing end part of a mechanical measurement-point key. -/
inductive EndSide where
  | DE
  | NDE
deriving DecidableEq

/-- Direction part of a mechanical measurement-point key. -/
inductive MDir where
  | Horizontal
  | Vertical
  | Axial
deriving DecidableEq

/-- A mechanical measurement point.  The source keys its dictionaries by the string
"Machine End Direction"; for the twelve canonical keys, `split()` into
(machine, end, direction) is exactly the three projections of this structure. -/
structure Point where
  machine : Machine
  endSide : EndSide
  direction : MDir
deriving DecidableEq

/-- Rendering of `Machine` as in the source's keys. -/
def Machine.toKey : Machine → String
  | .Pump => "Pump"
  | .Motor => "Motor"

/-- Rendering of `EndSide` as in the source's keys. -/
def EndSide.toKey : EndSide → String
  | .DE => "DE"
  | .NDE => "NDE"

/-- Rendering of `MDir` as in the source's keys. -/
def MDir.toKey : MDir → String
  | .Horizontal => "Horizontal"
  | .Vertical => "Vertical"
  | .Axial => "Axial"

/-- Rendering of a point as the source's dictionary key string. -/
def Point.toKey (p : Point) : String :=
  p.machine.toKey ++ " " ++ p.endSide.toKey ++ " " ++ p.direction.toKey

/-- The fixed 12 measurement points in canonical enumeration order, exactly the order of
the comprehension at src/app.py lines 978-981: Pump DE Horizontal, ..., Motor NDE Axial. -/
def canonicalPoints : List Point :=
  [⟨.Pump, .DE, .Horizontal⟩, ⟨.Pump, .DE, .Vertical⟩, ⟨.Pump, .DE, .Axial⟩,
   ⟨.Pump, .NDE, .Horizontal⟩, ⟨.Pump, .NDE, .Vertical⟩, ⟨.Pump, .NDE, .Axial⟩,
   ⟨.Motor, .DE, .Horizontal⟩, ⟨.Motor, .DE, .Vertical⟩, ⟨.Motor, .DE, .Axial⟩,
   ⟨.Motor, .NDE, .Horizontal⟩, ⟨.Motor, .NDE, .Vertical⟩, ⟨.Motor, .NDE, .Axial⟩]

/-- The keys of the per-point band dictionaries. -/
inductive BandKey where
  | Band1
  | Band2
  | Band3
deriving DecidableEq

/-- Python `bands.get(key, 0)`: association lookup with default 0. -/
def bget : List (BandKey × ℚ) → BandKey → ℚ
  | [], _ => 0
  | (k, v) :: rest, key => if k = key then v else bget rest key

/-- Python `vel_data.get(point, 0)`. -/
def vget : List (Point × ℚ) → Point → ℚ
  | [], _ => 0
  | (k, v) :: rest, key => if k = key then v else vget rest key

/-- Constant `ACCEL_BASELINE["Band1 (0.5-1.5kHz)"]` of src/app.py. -/
def ACCEL_BASELINE_Band1 : ℚ := 0.3

/-- Constant `ACCEL_BASELINE["Band2 (1.5-5kHz)"]` of src/app.py. -/
def ACCEL_BASELINE_Band2 : ℚ := 0.2

/-- Constant `ACCEL_BASELINE["Band3 (5-16kHz)"]` of src/app.py. -/
def ACCEL_BASELINE_Band3 : ℚ := 0.15

/-- Constant `ISO_LIMITS_VELOCITY["Zone B (Acceptable)"]` of src/app.py. -/
def ISO_LIMIT_warning : ℚ := 4.5

/-- Constant `ISO_LIMITS_VELOCITY["Zone C (Unacceptable)"]` of src/app.py. -/
def ISO_LIMIT_danger : ℚ := 7.1

/-- One iteration of the bearing (high-frequency) loop of `diagnose_mechanical_system`
(src/app.py lines 453-467), updating the running (diagnosis, severity) state.  Note the
source guards only the BEARING_EARLY branch against overwriting a higher severity; the
BEARING_SEVERE and BEARING_DEVELOPED branches assign unconditionally. -/
def bearingStep (st : String × Sev) (bands : List (BandKey × ℚ)) : String × Sev :=
  let b3 := bget bands .Band3
  let b2 := bget bands .Band2
  let b1 := bget bands .Band1
  if 2.5 * ACCEL_BASELINE_Band1 < b1 ∧ 1.5 * ACCEL_BASELINE_Band2 < b2 then
    ("BEARING_SEVERE", .High)
  else if 2.0 * ACCEL_BASELINE_Band2 < b2 ∧ 1.5 * ACCEL_BASELINE_Band3 < b3 then
    ("BEARING_DEVELOPED", if 3 * ACCEL_BASELINE_Band2 < b2 then .High else .Medium)
  else if 2.0 * ACCEL_BASELINE_Band3 < b3 then
    ("BEARING_EARLY", if st.2 = .Low then .Medium else st.2)
  else st

/-- The bearing evaluation of `diagnose_mechanical_system`: the loop over all points of
the band map, started from ("Normal", Low). -/
def bearingScan (bands_data : List (Point × List (BandKey × ℚ))) : String × Sev :=
  bands_data.foldl (fun st pb => bearingStep st pb.2) ("Normal", .Low)

/-- Python `max(vel_data, key=vel_data.get)` on a nonempty dictionary: scan left to
right keeping the current winner and replacing it only on a strictly larger value, so on
ties the earliest entry wins. -/
def pymaxKey {α : Type} (hd : α × ℚ) (tl : List (α × ℚ)) : α × ℚ :=
  tl.foldl (fun best x => if best.2 < x.2 then x else best) hd

/-- The FFT peak extraction of `diagnose_mechanical_system` (src/app.py lines 489-490):
Python `next((p[1] for p in fft if abs(p[0] - target) < tol), 0)`, the amplitude of the
FIRST peak in list order whose frequency lies strictly within `tol` of `target`, else 0. -/
def ampAt (fft : List (ℚ × ℚ)) (target tol : ℚ) : ℚ :=
  match fft with
  | [] => 0
  | p :: rest => if |p.1 - target| < tol then p.2 else ampAt rest target tol

/-- Stated from the spec's words, for comparison with `ampAt`: the amplitude of the peak
closest in frequency to the target among those strictly within the band, 0 when none is;
earlier peaks win exact distance ties. -/
def nearestAmpSpec (fft : List (ℚ × ℚ)) (target tol : ℚ) : ℚ :=
  match fft.filter (fun p => decide (|p.1 - target| < tol)) with
  | [] => 0
  | p :: rest =>
    (rest.foldl (fun best q => if |q.1 - target| < |best.1 - target| then q else best) p).2

/-- The mechanical `DiagnosisResult`. -/
structure MechResult where
  diagnosis : String
  confidence : ℤ
  severity : Sev
  fault_type : String
  champion_point : String
  temperature_notes : List String
deriving DecidableEq

/-- Function `diagnose_mechanical_system` from src/app.py (lines 432-554).  The measurement maps
are association lists in dictionary insertion order.  The result is `Except`-valued
because Python `max` raises on an empty map, the only reachable exception in the body:
missing band keys default to 0 via `bands.get`, missing velocity keys default to 0 via
`vel_data.get`, and the `temp_data` argument is accepted and never read, exactly as in
the source. -/
def diagnose_mechanical_system (vel_data : List (Point × ℚ))
    (bands_data : List (Point × List (BandKey × ℚ))) (fft_champ_data : List (ℚ × ℚ))
    (rpm_hz : ℚ) (temp_data : List (TLoc × ℚ)) : Except String MechResult :=
  let bearing := bearingScan bands_data
  let bearing_diag := bearing.1
  let worst_bearing_severity := bearing.2
  match vel_data with
  | [] => Except.error "max() arg is an empty sequence"
  | v0 :: vrest =>
    let champ := pymaxKey v0 vrest
    let champ_point := champ.1
    let max_vel := champ.2
    let lowTriple : String × ℤ × Sev :=
      if ISO_LIMIT_warning < max_vel then
        let low_freq_severity : Sev := if ISO_LIMIT_danger < max_vel then .High else .Medium
        let amp_1x := ampAt fft_champ_data rpm_hz (0.05 * rpm_hz)
        let amp_2x := ampAt fft_champ_data (2 * rpm_hz) (0.05 * rpm_hz)
        let ruleHit : Option (String × ℤ) :=
          if champ_point.direction = .Axial ∧ champ_point.endSide = .DE then
            let opp_machine : Machine := if champ_point.machine = .Motor then .Pump else .Motor
            let opp_vel := vget vel_data ⟨opp_machine, .DE, .Axial⟩
            if 0.5 * amp_1x < amp_2x ∨ ISO_LIMIT_warning < opp_vel then
              some ("MISALIGNMENT", min 95 (75 + pytrunc
                (if 0 < ISO_LIMIT_warning then opp_vel / ISO_LIMIT_warning * 10 else 0)))
            else none
          else if champ_point.direction = .Horizontal then
            let opp_end : EndSide := if champ_point.endSide = .DE then .NDE else .DE
            let opp_vel := vget vel_data ⟨champ_point.machine, opp_end, .Horizontal⟩
            let total_fft :=
              if fft_champ_data.isEmpty then 1 else (fft_champ_data.map Prod.snd).sum
            if 0.7 * total_fft < amp_1x ∨ ISO_LIMIT_warning < opp_vel then
              some ("UNBALANCE", min 90 (70 + pytrunc
                (if 0 < max_vel then amp_1x / max_vel * 20 else 0)))
            else none
          else if champ_point.direction = .Vertical then
            let high_verts : ℕ := (vel_data.filter (fun pv =>
              decide (pv.1.direction = .Vertical) && decide (ISO_LIMIT_warning < pv.2))).length
            if 2 ≤ high_verts ∨ ((0.1 : ℚ) < amp_2x ∧ (0.1 : ℚ) < amp_1x) then
              some ("LOOSENESS", min 90 (60 + (high_verts : ℤ) * 10))
            else none
          else none
        match ruleHit with
        | some dc => (dc.1, dc.2, low_freq_severity)
        | none => ("Tidak Terdiagnosa", 40, low_freq_severity)
      else ("", 0, .Low)
    let low_freq_diag := lowTriple.1
    let low_freq_conf := lowTriple.2.1
    let low_freq_severity := lowTriple.2.2
    Except.ok
      (if low_freq_severity = .High then
        { diagnosis := low_freq_diag, confidence := low_freq_conf, severity := .High,
          fault_type := "low_freq", champion_point := champ_point.toKey,
          temperature_notes := [] }
      else if worst_bearing_severity = .High then
        { diagnosis := bearing_diag, confidence := 85, severity := .High,
          fault_type := "high_freq", champion_point := champ_point.toKey,
          temperature_notes := [] }
      else if low_freq_severity = .Medium then
        { diagnosis := low_freq_diag, confidence := low_freq_conf, severity := .Medium,
          fault_type := "low_freq", champion_point := champ_point.toKey,
          temperature_notes := [] }
      else if worst_bearing_severity = .Medium then
        { diagnosis := bearing_diag, confidence := 75, severity := .Medium,
          fault_type := "high_freq", champion_point := champ_point.toKey,
          temperature_notes := [] }
      else
        { diagnosis := "Normal", confidence := 99, severity := .Low,
          fault_type := "normal", champion_point := "Tidak Ada (Normal)",
          temperature_notes := [] })

/-- Design parameters consumed by the hydraulic diagnoser. -/
structure HydDesign where
  rated_head_m : ℚ
  bep_efficiency : ℚ
  rated_flow_m3h : ℚ
  npsh_required_m : ℚ
deriving DecidableEq

/-- The two fluid properties the hydraulic diagnoser reads. -/
structure FluidProps where
  sg : ℚ
  vapor_pressure_kpa_38C : ℚ
deriving DecidableEq

/-- Field observations consumed by the hydraulic diagnoser. -/
structure HydObservations where
  noise_type : String
  fluid_condition : String
deriving DecidableEq

/-- The context record consumed by the hydraulic diagnoser. -/
structure HydContext where
  flow_aktual : ℚ
  suction_pressure_bar : ℚ
deriving DecidableEq

/-- The hydraulic `DiagnosisResult`; the `details` dictionary is the `deviations` and
`npsh_margin_m` fields. -/
structure HydResult where
  diagnosis : String
  confidence : ℤ
  severity : Sev
  fault_type : String
  deviations : Devs
  npsh_margin_m : ℚ
deriving DecidableEq

/-- The NPSH margin computed inside `diagnose_hydraulic_single_point` (src/app.py lines
584-590): `((suction_bar + 1.013) * 100 - vapor_kPa) / (sg * 9.81) - npsh_required`,
with the division guarded by `sg > 0`. -/
def npshMargin (design_params : HydDesign) (fluid_props : FluidProps)
    (context : HydContext) : ℚ :=
  let p_suction_abs_kpa := (context.suction_pressure_bar + 1.013) * 100
  let npsha_estimated :=
    if 0 < fluid_props.sg then
      (p_suction_abs_kpa - fluid_props.vapor_pressure_kpa_38C) / (fluid_props.sg * 9.81)
    else 0
  npsha_estimated - design_params.npsh_required_m

/-- Function `diagnose_hydraulic_single_point` from src/app.py (lines 560-640): the fault rules
in source order, first match winning via early return. -/
def diagnose_hydraulic_single_point (hydraulic_calc : HydParams)
    (design_params : HydDesign) (fluid_props : FluidProps)
    (observations : HydObservations) (context : HydContext) : HydResult :=
  let pd := classify_hydraulic_performance hydraulic_calc.head_m design_params.rated_head_m
    hydraulic_calc.efficiency_percent design_params.bep_efficiency context.flow_aktual
    design_params.rated_flow_m3h
  let pattern := pd.1
  let deviations := pd.2
  let npsh_margin := npshMargin design_params fluid_props context
  if observations.noise_type = "Crackling" ∧ npsh_margin < 0.5 then
    { diagnosis := "CAVITATION",
      confidence := min 90 (70 + pytrunc ((0.5 - npsh_margin) * 20)),
      severity := if npsh_margin < 0.3 then .High else .Medium,
      fault_type := "cavitation", deviations := deviations, npsh_margin_m := npsh_margin }
  else if pattern = "UNDER_PERFORMANCE" ∧ observations.noise_type = "Normal" then
    { diagnosis := "IMPELLER_WEAR",
      confidence := min 85 (60 + pytrunc (|deviations.head_dev.getD 0| * 2)),
      severity := if deviations.head_dev.getD 0 < -15 then .High else .Medium,
      fault_type := "wear", deviations := deviations, npsh_margin_m := npsh_margin }
  else if pattern = "OVER_RESISTANCE" then
    { diagnosis := "SYSTEM_RESISTANCE_HIGH",
      confidence := min 90 (70 + pytrunc |deviations.head_dev.getD 0|),
      severity := if deviations.flow_dev.getD 0 < -30 then .High else .Medium,
      fault_type := "system", deviations := deviations, npsh_margin_m := npsh_margin }
  else if pattern = "EFFICIENCY_DROP" then
    { diagnosis := "EFFICIENCY_DROP",
      confidence := min 80 (65 + pytrunc |deviations.eff_dev.getD 0|),
      severity := if deviations.eff_dev.getD 0 < -20 then .High else .Medium,
      fault_type := "efficiency", deviations := deviations, npsh_margin_m := npsh_margin }
  else if pattern = "NORMAL" then
    { diagnosis := "NORMAL_OPERATION", confidence := 95, severity := .Low,
      fault_type := "normal", deviations := deviations, npsh_margin_m := npsh_margin }
  else
    { diagnosis := "Tidak Terdiagnosa", confidence := 40, severity := .Medium,
      fault_type := "unknown", deviations := deviations, npsh_margin_m := npsh_margin }

/-- The per-domain result as consumed by the aggregator: the aggregator reads only the
diagnosis, confidence, severity and fault-type fields plus two entries of the `details`
dictionary, which may be absent (`none`, read back through `.get(..., 0)`). -/
structure DomainResult where
  diagnosis : String
  confidence : ℚ
  severity : Sev
  fault_type : String
  details_head_dev : Option ℚ
  details_current_unbalance : Option ℚ
deriving DecidableEq

/-- The `IntegratedDiagnosisResult` as built by the aggregator (the domain breakdown is
the argument triple itself and is omitted from the record). -/
structure SystemResult where
  diagnosis : String
  confidence : ℤ
  severity : Sev
  correlation_notes : List String
  temperature_notes : List String
deriving DecidableEq

/-- Guard of correlation rule 1 (src/app.py lines 676-678). -/
def corrCond1 (mech hyd elec : DomainResult) : Bool :=
  decide (elec.fault_type = "voltage") &&
    (decide (mech.diagnosis = "MISALIGNMENT") || decide (mech.diagnosis = "LOOSENESS")) &&
    decide (hyd.details_head_dev.getD 0 < -5)

/-- Guard of correlation rule 2 (src/app.py lines 684-685). -/
def corrCond2 (mech hyd elec : DomainResult) : Bool :=
  decide (hyd.fault_type = "cavitation") && decide (mech.fault_type = "wear") &&
    decide ((5 : ℚ) < elec.details_current_unbalance.getD 0)

/-- Guard of correlation rule 3 (src/app.py line 691). -/
def corrCond3 (mech hyd elec : DomainResult) : Bool :=
  decide (elec.diagnosis = "OVER_LOAD") && decide (hyd.fault_type = "efficiency")

/-- Label set by correlation rule 1. -/
def corrLabel1 : String := "Electrical-Mechanical-Hydraulic Coupled Fault"

/-- Label set by correlation rule 2. -/
def corrLabel2 : String := "Cascading Failure: Cavitation Origin"

/-- Label set by correlation rule 3. -/
def corrLabel3 : String := "Internal Loss Investigation Required"

/-- The sentinel top-level diagnosis when no correlation rule fires. -/
def noCorrLabel : String := "Tidak Ada Korelasi Antar Domain Terdeteksi"

/-- Note appended by correlation rule 1. -/
def corrNote1 : String := "Voltage unbalance → torque pulsation → hydraulic instability"

/-- Note appended by correlation rule 2. -/
def corrNote2 : String := "Cavitation → impeller erosion → unbalance → current fluctuation"

/-- Note appended by correlation rule 3. -/
def corrNote3 : String :=
  "High electrical input + low hydraulic output → internal mechanical/hydraulic loss"

/-- The sentinel correlation note when no note was collected. -/
def noCorrNote : String := "Tidak ada korelasi kuat antar domain terdeteksi"

/-- Python truthiness of the optional temperature dictionary (`if temp_data:`): false
for `None` and for an empty dictionary. -/
def tempTruthy : Option (List (TLoc × ℚ)) → Bool
  | none => false
  | some td => !td.isEmpty

/-- The critical-temperature override scan of the aggregator (src/app.py lines 724-729):
some stored temperature is truthy (nonzero) and STRICTLY above `critical_min` = 90. -/
def tempOverride (temp_data : Option (List (TLoc × ℚ))) : Bool :=
  match temp_data with
  | none => false
  | some td =>
    tempTruthy (some td) &&
      td.any (fun lt => decide (lt.2 ≠ 0) && decide (BEARING_TEMP_critical_min < lt.2))

/-- Function `aggregate_cross_domain_diagnosis` from src/app.py (lines 646-738), transliterated
block by block: the three correlation rules run in sequence, each accumulating its bonus
and note and overwriting the top-level diagnosis; the temperature block adds the clamped
adjustment of `calculate_temperature_confidence_adjustment` and two ΔT notes; severity
is the membership chain over the three domain severities, overwritten to High by the
critical-temperature scan; confidence is `min(95, int(mean(positive confidences) +
correlation_bonus))` with `np.mean` as sum/length and Python `int()` as `pytrunc`. -/
def aggregate_cross_domain_diagnosis (mech_result hyd_result elec_result : DomainResult)
    (temp_data : Option (List (TLoc × ℚ))) : SystemResult :=
  let c1 := corrCond1 mech_result hyd_result elec_result
  let c2 := corrCond2 mech_result hyd_result elec_result
  let c3 := corrCond3 mech_result hyd_result elec_result
  let bonus1 : ℤ := if c1 then 15 else 0
  let notes1 : List String := if c1 then [corrNote1] else []
  let diag1 : String := if c1 then corrLabel1 else noCorrLabel
  let bonus2 : ℤ := if c2 then bonus1 + 20 else bonus1
  let notes2 : List String := if c2 then notes1 ++ [corrNote2] else notes1
  let diag2 : String := if c2 then corrLabel2 else diag1
  let bonus3 : ℤ := if c3 then bonus2 + 10 else bonus2
  let notes3 : List String := if c3 then notes2 ++ [corrNote3] else notes2
  let diag3 : String := if c3 then corrLabel3 else diag2
  let tempTriple : ℤ × List String × List String :=
    match temp_data with
    | none => (0, [], [])
    | some td =>
      if td.isEmpty then (0, [], [])
      else
        let adjNotes := calculate_temperature_confidence_adjustment td
          (decide (mech_result.fault_type ≠ "normal"))
        let dnotes1 : List String :=
          if dtruthy td .Pump_DE && dtruthy td .Pump_NDE &&
              decide (BEARING_TEMP_delta_threshold <
                |(dget td .Pump_DE).getD 0 - (dget td .Pump_NDE).getD 0|) then
            ["Pump DE-NDE ΔT >15°C → Localized fault on DE bearing"]
          else []
        let dnotes2 : List String :=
          if dtruthy td .Motor_DE && dtruthy td .Pump_DE &&
              decide ((dget td .Pump_DE).getD 0 + 10 < (dget td .Motor_DE).getD 0) then
            ["Motor DE > Pump DE → Possible electrical origin"]
          else []
        (adjNotes.1, adjNotes.2, dnotes1 ++ dnotes2)
  let severity0 : Sev :=
    if mech_result.severity = .High ∨ hyd_result.severity = .High ∨
        elec_result.severity = .High then .High
    else if mech_result.severity = .Medium ∨ hyd_result.severity = .Medium ∨
        elec_result.severity = .Medium then .Medium
    else .Low
  let overrideHit := tempOverride temp_data
  let severity : Sev := if overrideHit then .High else severity0
  let override_notes : List String :=
    if overrideHit then ["⚠️ Critical bearing temperature detected"] else []
  let confidences := [mech_result.confidence, hyd_result.confidence,
    elec_result.confidence].filter (fun c => decide ((0 : ℚ) < c))
  let base_confidence : ℚ :=
    if confidences.isEmpty then 0 else confidences.sum / (confidences.length : ℚ)
  let correlation_bonus : ℤ := bonus3 + tempTriple.1
  let confidence : ℤ := min 95 (pytrunc (base_confidence + (correlation_bonus : ℚ)))
  let correlated_faults := notes3 ++ tempTriple.2.2 ++ override_notes
  { diagnosis := diag3
    confidence := confidence
    severity := severity
    correlation_notes := if correlated_faults.isEmpty then [noCorrNote] else correlated_faults
    temperature_notes := tempTriple.2.1 }

/-- The base confidence of the aggregator, standalone: arithmetic mean of the domain
confidences that are strictly positive, 0 when none are. -/
def aggBase (mech hyd elec : DomainResult) : ℚ :=
  let cs := [mech.confidence, hyd.confidence, elec.confidence].filter
    (fun c => decide ((0 : ℚ) < c))
  if cs.isEmpty then 0 else cs.sum / (cs.length : ℚ)

/-- The total bonus the aggregator adds to the base confidence: correlation-rule
bonuses plus the clamped temperature adjustment (0 for a missing or empty map). -/
def aggBonus (mech hyd elec : DomainResult) (temp_data : Option (List (TLoc × ℚ))) : ℤ :=
  ((if corrCond1 mech hyd elec then 15 else 0) +
    (if corrCond2 mech hyd elec then 20 else 0) +
    (if corrCond3 mech hyd elec then 10 else 0)) +
  (if tempTruthy temp_data then
    (calculate_temperature_confidence_adjustment (temp_data.getD [])
      (decide (mech.fault_type ≠ "normal"))).1
  else 0)

/-- The head formula as the claim states it: `delta_p * 10.2 / sg` when sg > 0, 0 when
sg <= 0. -/
def headFormula (s d sg : ℚ) : ℚ := if 0 < sg then (d - s) * 10.2 / sg else 0

/-- The hydraulic power formula as the claim states it: 0 unless flow > 0 and head > 0. -/
def powerFormula (s d f sg : ℚ) : ℚ :=
  if 0 < f ∧ 0 < headFormula s d sg then f * headFormula s d sg * sg * 9.81 / 3600 else 0

/-- The efficiency formula as the claim states it: 0 whenever motor power <= 0,
regardless of the hydraulic power. -/
def efficiencyFormula (s d f mp sg : ℚ) : ℚ :=
  if mp ≤ 0 then 0 else powerFormula s d f sg / mp * 100

/-- The champion-selection step of `diagnose_mechanical_system` applied to a 12-point
map presented in canonical enumeration order: Python `max(vel_data, key=vel_data.get)`
on the insertion-ordered dictionary built over `canonicalPoints`. -/
def championOf (f : Point → ℚ) : Point × ℚ :=
  match canonicalPoints.map (fun p => (p, f p)) with
  | [] => (⟨.Pump, .DE, .Horizontal⟩, 0)
  | x :: xs => pymaxKey x xs

/-! ### Helper lemmas -/

/-- Truncation `pytrunc` never goes below an integer lower bound of -10. -/
theorem neg_ten_le_pytrunc {q : ℚ} (hq : (-10 : ℚ) ≤ q) : (-10 : ℤ) ≤ pytrunc q := by
  unfold pytrunc
  split_ifs with hpos
  · have h0 : (0 : ℤ) ≤ ⌊q⌋ := Int.le_floor.mpr (by exact_mod_cast hpos)
    omega
  · have h10 : ((-10 : ℤ) : ℚ) ≤ q := by exact_mod_cast hq
    calc (-10 : ℤ) = ⌈((-10 : ℤ) : ℚ)⌉ := (Int.ceil_intCast _).symm
    _ ≤ ⌈q⌉ := Int.ceil_le_ceil h10

/-- The sum of the positive-filtered confidences is nonnegative. -/
theorem sum_filter_pos_nonneg (l : List ℚ) :
    0 ≤ (l.filter (fun c => decide ((0 : ℚ) < c))).sum := by
  induction l with
  | nil => simp
  | cons x rest ih =>
    by_cases hx : (0 : ℚ) < x
    · rw [List.filter_cons, if_pos (by simp [hx]), List.sum_cons]
      linarith
    · rw [List.filter_cons, if_neg (by simp [hx])]
      exact ih

/-- The aggregator's base confidence is nonnegative. -/
theorem aggBase_nonneg (mech hyd elec : DomainResult) : 0 ≤ aggBase mech hyd elec := by
  simp only [aggBase]
  split_ifs with hcs
  · exact le_refl 0
  · exact div_nonneg (sum_filter_pos_nonneg _) (by positivity)

/-- The clamped temperature adjustment is at least -10. -/
theorem neg_ten_le_temp_adjustment (td : List (TLoc × ℚ)) (b : Bool) :
    (-10 : ℤ) ≤ (calculate_temperature_confidence_adjustment td b).1 := by
  unfold calculate_temperature_confidence_adjustment
  exact le_min (by norm_num) (le_max_left _ _)

/-- The aggregator's total bonus is at least -10. -/
theorem neg_ten_le_aggBonus (mech hyd elec : DomainResult)
    (td : Option (List (TLoc × ℚ))) : (-10 : ℤ) ≤ aggBonus mech hyd elec td := by
  unfold aggBonus
  have h1 : (0 : ℤ) ≤ (if corrCond1 mech hyd elec then 15 else 0) := by split_ifs <;> norm_num
  have h2 : (0 : ℤ) ≤ (if corrCond2 mech hyd elec then 20 else 0) := by split_ifs <;> norm_num
  have h3 : (0 : ℤ) ≤ (if corrCond3 mech hyd elec then 10 else 0) := by split_ifs <;> norm_num
  have h4 : (-10 : ℤ) ≤ (if tempTruthy td then
      (calculate_temperature_confidence_adjustment (td.getD [])
        (decide (mech.fault_type ≠ "normal"))).1
    else 0) := by
    split_ifs
    · exact neg_ten_le_temp_adjustment _ _
    · norm_num
  omega

/-- The membership chain the aggregator uses for the overall severity equals the maximum
in the order Low < Medium < High. -/
theorem sevChain_eq_sevMax (a b c : Sev) :
    (if a = .High ∨ b = .High ∨ c = .High then Sev.High
     else if a = .Medium ∨ b = .Medium ∨ c = .Medium then Sev.Medium else Sev.Low) =
      sevMax a (sevMax b c) := by
  cases a <;> cases b <;> cases c <;> decide

/-! ### Claim C3: the bearing fold can downgrade -/

/-- Claim C3 (code bug witness): a point matching BEARING_SEVERE (Band1 = 1 g > 2.5 x 0.3,
Band2 = 0.5 g > 1.5 x 0.2) yields (BEARING_SEVERE, High); appending a second point that
matches BEARING_DEVELOPED with Band2 = 0.5 <= 3 x 0.2 OVERWRITES the state down to
(BEARING_DEVELOPED, Medium), so the accumulated bearing severity does downgrade and the
worst point does not win, contrary to the claim and to the guard the source itself puts
on the BEARING_EARLY branch. -/
theorem C3_bearing_downgrade_bug :
    bearingScan [(⟨.Pump, .DE, .Horizontal⟩, [(.Band1, 1), (.Band2, 0.5)])] =
      ("BEARING_SEVERE", Sev.High) ∧
    bearingScan [(⟨.Pump, .DE, .Horizontal⟩, [(.Band1, 1), (.Band2, 0.5)]),
        (⟨.Pump, .DE, .Vertical⟩, [(.Band2, 0.5), (.Band3, 0.4)])] =
      ("BEARING_DEVELOPED", Sev.Medium) := by
  constructor <;>
    norm_num +decide [bearingScan, bearingStep, bget, ACCEL_BASELINE_Band1,
      ACCEL_BASELINE_Band2, ACCEL_BASELINE_Band3]

/-! ### Claim C4: missing keys never raise -/

/-- Claim C4 (counterexample): an input missing ten of the twelve velocity keys, the
Band3 key of its only band entry, and three of the four temperature keys is processed
without any error: the mechanical diagnoser returns a Normal result and the temperature
adjuster returns an adjustment, whereas the claim requires an InvalidInputError. -/
theorem C4_counterexample :
    (diagnose_mechanical_system
        [(⟨.Pump, .DE, .Horizontal⟩, 1), (⟨.Pump, .DE, .Vertical⟩, 1)]
        [(⟨.Pump, .DE, .Horizontal⟩, [(.Band1, 0.2), (.Band2, 0.15)])] [] 25
        [(.Pump_DE, 75)]).toOption =
      some ⟨"Normal", 99, .Low, "normal", "Tidak Ada (Normal)", []⟩ ∧
    (calculate_temperature_confidence_adjustment [(.Pump_DE, 75)] true).1 = 10 := by
  constructor
  · norm_num +decide [diagnose_mechanical_system, bearingScan, bearingStep, bget, pymaxKey,
      ISO_LIMIT_warning, ISO_LIMIT_danger, ACCEL_BASELINE_Band1, ACCEL_BASELINE_Band2,
      ACCEL_BASELINE_Band3, Except.toOption]
  · norm_num +decide [calculate_temperature_confidence_adjustment, tempAdjStep,
      get_temperature_status, dget, dtruthy, BEARING_TEMP_normal_max,
      BEARING_TEMP_elevated_max, BEARING_TEMP_warning_max, BEARING_TEMP_delta_threshold]

/-- Claim C4 (amended): no input structure ever raises an InvalidInputError (the source
defines none); missing band keys default to 0, missing velocity and temperature keys are
simply skipped, and the mechanical diagnoser succeeds on every input whose velocity map
is nonempty (an entirely empty velocity map is the sole failure, Python's `max` on an
empty sequence); the temperature adjuster is total. -/
theorem C4_no_invalid_input_error_amended (vel_data : List (Point × ℚ))
    (bands_data : List (Point × List (BandKey × ℚ))) (fft : List (ℚ × ℚ)) (rpm_hz : ℚ)
    (temp_data : List (TLoc × ℚ)) (hv : vel_data ≠ []) :
    ∃ r, diagnose_mechanical_system vel_data bands_data fft rpm_hz temp_data =
      Except.ok r := by
  cases vel_data with
  | nil => exact absurd rfl hv
  | cons v0 vrest => exact ⟨_, rfl⟩

/-- Witness for C4 (amended) at a concrete one-point input. -/
theorem C4_no_invalid_input_error_witness :
    ∃ r, diagnose_mechanical_system [(⟨.Pump, .DE, .Horizontal⟩, 1)] [] [] 25 [] =
      Except.ok r :=
  C4_no_invalid_input_error_amended [(⟨.Pump, .DE, .Horizontal⟩, 1)] [] [] 25 []
    (by simp)

/-! ### Claim C5: first peak in list order, not the nearest -/

/-- Claim C5 (counterexample): with peaks at 52 Hz (amplitude 1) and 50 Hz (amplitude 2)
and target 50 Hz with band half-width 2.5 Hz, both peaks lie in the band; the code
returns the amplitude 1 of the FIRST peak in list order while the claimed
nearest-peak rule returns 2. -/
theorem C5_counterexample :
    ampAt [((52 : ℚ), 1), (50, 2)] 50 (5 / 2) = 1 ∧
    nearestAmpSpec [((52 : ℚ), 1), (50, 2)] 50 (5 / 2) = 2 := by
  constructor
  · norm_num [ampAt]
  · norm_num [nearestAmpSpec]

/-- Claim C5 (amended): the amplitude the diagnoser uses is that of the FIRST supplied
peak in list order whose frequency lies strictly within `tol` of the target (with
`tol` = 0.05 x (1xRPM frequency) for both the 1x and the 2x target), and 0 when no
supplied peak lies within that band. -/
theorem C5_first_peak_amended (fft : List (ℚ × ℚ)) (target tol : ℚ) :
    ((∀ p ∈ fft, ¬ |p.1 - target| < tol) ∧ ampAt fft target tol = 0) ∨
    (∃ pre pk suf, fft = pre ++ pk :: suf ∧ |pk.1 - target| < tol ∧
      (∀ q ∈ pre, ¬ |q.1 - target| < tol) ∧ ampAt fft target tol = pk.2) := by
  induction fft with
  | nil => exact Or.inl ⟨by simp, rfl⟩
  | cons p rest ih =>
    by_cases hp : |p.1 - target| < tol
    · exact Or.inr ⟨[], p, rest, rfl, hp, by simp, by simp [ampAt, hp]⟩
    · rcases ih with ⟨hall, hz⟩ | ⟨pre, pk, suf, heq, hpk, hpre, hval⟩
      · refine Or.inl ⟨?_, by simp [ampAt, hp, hz]⟩
        intro q hq
        rcases List.mem_cons.mp hq with hq | hq
        · exact hq ▸ hp
        · exact hall q hq
      · refine Or.inr ⟨p :: pre, pk, suf, by simp [heq], hpk, ?_, by simp [ampAt, hp, hval]⟩
        intro q hq
        rcases List.mem_cons.mp hq with hq | hq
        · exact hq ▸ hp
        · exact hpre q hq

/-! ### Claim C8: the hydraulic calculator is total, with guarded divisions -/

/-- Claim C8: for every input the hydraulic parameter calculator succeeds (no division
ever raises: each guarded division resolves to 0 instead), and returns exactly
delta_p = discharge - suction, the guarded head, the guarded hydraulic power, and an
efficiency that is 0 whenever motor power <= 0 regardless of the hydraulic power. -/
theorem C8_hydraulic_calculator_total (s d f mp sg : ℚ) :
    calculate_hydraulic_parameters s d f mp sg = Except.ok
      { delta_p_bar := d - s, head_m := headFormula s d sg,
        hydraulic_power_kw := powerFormula s d f sg,
        efficiency_percent := efficiencyFormula s d f mp sg } := by
  simp only [calculate_hydraulic_parameters, pydiv, headFormula, powerFormula,
    efficiencyFormula]
  have h3600 : ((3600 : ℚ) = 0) = False := by norm_num
  by_cases hsg : 0 < sg
  · simp only [if_pos hsg, eq_false (ne_of_gt hsg), if_false, h3600]
    by_cases hfp : 0 < f ∧ 0 < (d - s) * 10.2 / sg
    · simp only [if_pos hfp]
      by_cases hmp : 0 < mp
      · simp only [if_pos hmp, eq_false (ne_of_gt hmp), if_false,
          eq_false (not_le.mpr hmp)]
      · simp only [if_neg hmp, if_pos (not_lt.mp hmp)]
    · simp only [if_neg hfp]
      by_cases hmp : 0 < mp
      · simp only [if_pos hmp, eq_false (ne_of_gt hmp), if_false,
          eq_false (not_le.mpr hmp)]
      · simp only [if_neg hmp, if_pos (not_lt.mp hmp)]
  · simp only [if_neg hsg]
    have hfp : (0 < f ∧ (0 : ℚ) < 0) = False := by simp
    simp only [hfp, if_false]
    by_cases hmp : 0 < mp
    · simp only [if_pos hmp, eq_false (ne_of_gt hmp), if_false,
        eq_false (not_le.mpr hmp)]
    · simp only [if_neg hmp, if_pos (not_lt.mp hmp)]

/-! ### Claim C10: unbalance percentage is invariant under positive scaling -/

/-- Scaling all three phase values by k > 0 leaves the unbalance percentage unchanged. -/
theorem unbalancePercent_smul (k x1 x2 x3 : ℚ) (hk : 0 < k) :
    unbalancePercent (k * x1) (k * x2) (k * x3) = unbalancePercent x1 x2 x3 := by
  have havg : (k * x1 + k * x2 + k * x3) / 3 = k * ((x1 + x2 + x3) / 3) := by ring
  have habs : ∀ x : ℚ, |k * x - k * ((x1 + x2 + x3) / 3)| = k * |x - (x1 + x2 + x3) / 3| :=
    fun x => by rw [← mul_sub, abs_mul, abs_of_pos hk]
  simp only [unbalancePercent, havg, habs]
  rw [← mul_max_of_nonneg _ _ hk.le, ← mul_max_of_nonneg _ _ hk.le]
  by_cases hpos : 0 < (x1 + x2 + x3) / 3
  · rw [if_pos hpos, if_pos (mul_pos hk hpos)]
    rw [mul_div_mul_left _ _ (ne_of_gt hk)]
  · rw [if_neg hpos, if_neg (fun hcon => hpos (by nlinarith))]

/-- Claim C10: the electrical parameter calculator's voltage and current unbalance
percentages are unchanged when all three phase values (voltages and currents) are
multiplied by a common factor k > 0. -/
theorem C10_unbalance_scale_invariant (v1 v2 v3 i1 i2 i3 rv fla k : ℚ) (hk : 0 < k) :
    (calculate_electrical_parameters (k * v1) (k * v2) (k * v3) (k * i1) (k * i2)
        (k * i3) rv fla).voltage_unbalance_percent =
      (calculate_electrical_parameters v1 v2 v3 i1 i2 i3 rv fla).voltage_unbalance_percent ∧
    (calculate_electrical_parameters (k * v1) (k * v2) (k * v3) (k * i1) (k * i2)
        (k * i3) rv fla).current_unbalance_percent =
      (calculate_electrical_parameters v1 v2 v3 i1 i2 i3 rv fla).current_unbalance_percent := by
  constructor
  · show unbalancePercent (k * v1) (k * v2) (k * v3) = unbalancePercent v1 v2 v3
    exact unbalancePercent_smul k v1 v2 v3 hk
  · show unbalancePercent (k * i1) (k * i2) (k * i3) = unbalancePercent i1 i2 i3
    exact unbalancePercent_smul k i1 i2 i3 hk

/-- Witness for C10 at concrete phase triples and k = 2. -/
theorem C10_unbalance_scale_witness :
    (calculate_electrical_parameters (2 * 398) (2 * 400) (2 * 402) (2 * 82) (2 * 84)
        (2 * 83) 400 100).voltage_unbalance_percent =
      (calculate_electrical_parameters 398 400 402 82 84 83 400
        100).voltage_unbalance_percent ∧
    (calculate_electrical_parameters (2 * 398) (2 * 400) (2 * 402) (2 * 82) (2 * 84)
        (2 * 83) 400 100).current_unbalance_percent =
      (calculate_electrical_parameters 398 400 402 82 84 83 400
        100).current_unbalance_percent :=
  C10_unbalance_scale_invariant 398 400 402 82 84 83 400 100 2 (by norm_num)

/-! ### Claim C6: cavitation rule -/

/-- Claim C6 (amended): the hydraulic fault rules run in source order with the first
match winning; whenever noise is "Crackling" and the NPSH margin is < 0.5, the result is
CAVITATION with severity High iff the margin is < 0.3, and confidence
min(90, 70 + trunc((0.5 - margin) * 20)) where trunc is Python int() truncation toward
zero - not round as the claim stated. -/
theorem C6_cavitation_amended (hc : HydParams) (dp : HydDesign) (fp : FluidProps)
    (obs : HydObservations) (ctx : HydContext) (hnoise : obs.noise_type = "Crackling")
    (hm : npshMargin dp fp ctx < 0.5) :
    (diagnose_hydraulic_single_point hc dp fp obs ctx).diagnosis = "CAVITATION" ∧
    (diagnose_hydraulic_single_point hc dp fp obs ctx).severity =
      (if npshMargin dp fp ctx < 0.3 then Sev.High else Sev.Medium) ∧
    (diagnose_hydraulic_single_point hc dp fp obs ctx).confidence =
      min 90 (70 + pytrunc ((0.5 - npshMargin dp fp ctx) * 20)) ∧
    (diagnose_hydraulic_single_point hc dp fp obs ctx).fault_type = "cavitation" := by
  have hcond : obs.noise_type = "Crackling" ∧ npshMargin dp fp ctx < 0.5 := ⟨hnoise, hm⟩
  simp only [diagnose_hydraulic_single_point, if_pos hcond]
  exact ⟨trivial, trivial, trivial, trivial⟩

/-- Witness for C6 (amended) at a concrete input with NPSH margin 0.2 (< 0.3, so
severity High, confidence 76). -/
theorem C6_cavitation_witness :
    (diagnose_hydraulic_single_point ⟨0, 0, 0, 0⟩ ⟨0, 0, 0, -(1 / 5)⟩ ⟨1, 0⟩
        ⟨"Crackling", "Jernih"⟩ ⟨0, -1.013⟩).diagnosis = "CAVITATION" ∧
    (diagnose_hydraulic_single_point ⟨0, 0, 0, 0⟩ ⟨0, 0, 0, -(1 / 5)⟩ ⟨1, 0⟩
        ⟨"Crackling", "Jernih"⟩ ⟨0, -1.013⟩).severity =
      (if npshMargin ⟨0, 0, 0, -(1 / 5)⟩ ⟨1, 0⟩ ⟨0, -1.013⟩ < 0.3 then Sev.High
       else Sev.Medium) ∧
    (diagnose_hydraulic_single_point ⟨0, 0, 0, 0⟩ ⟨0, 0, 0, -(1 / 5)⟩ ⟨1, 0⟩
        ⟨"Crackling", "Jernih"⟩ ⟨0, -1.013⟩).confidence =
      min 90 (70 + pytrunc ((0.5 - npshMargin ⟨0, 0, 0, -(1 / 5)⟩ ⟨1, 0⟩ ⟨0, -1.013⟩) * 20)) ∧
    (diagnose_hydraulic_single_point ⟨0, 0, 0, 0⟩ ⟨0, 0, 0, -(1 / 5)⟩ ⟨1, 0⟩
        ⟨"Crackling", "Jernih"⟩ ⟨0, -1.013⟩).fault_type = "cavitation" :=
  C6_cavitation_amended ⟨0, 0, 0, 0⟩ ⟨0, 0, 0, -(1 / 5)⟩ ⟨1, 0⟩ ⟨"Crackling", "Jernih"⟩
    ⟨0, -1.013⟩ rfl (by norm_num [npshMargin])

/-- Claim C6 (counterexample): at NPSH margin exactly 0.46 the code computes confidence
min(90, 70 + int(0.8)) = 70, while the claimed formula min(90, 70 + round(0.8)) gives
71: Python int() truncates, it does not round. -/
theorem C6_counterexample :
    (diagnose_hydraulic_single_point ⟨0, 0, 0, 0⟩ ⟨0, 0, 0, -(23 / 50)⟩ ⟨1, 0⟩
        ⟨"Crackling", "Jernih"⟩ ⟨0, -1.013⟩).confidence = 70 ∧
    min 90 (70 + round (((0.5 : ℚ) - 23 / 50) * 20)) = 71 := by
  constructor
  · norm_num +decide [diagnose_hydraulic_single_point, classify_hydraulic_performance,
      npshMargin, pytrunc]
  · rw [round_eq, show ((0.5 : ℚ) - 23 / 50) * 20 + 1 / 2 = 13 / 10 by norm_num]
    rw [show ⌊(13 : ℚ) / 10⌋ = 1 from by rw [Int.floor_eq_iff] <;> norm_num]
    norm_num

/-! ### Claim C1: integrated severity -/

/-- Claim C1 (counterexample): with all three domain severities Low and a present
bearing temperature of exactly 90 °C, the aggregator returns severity Low: the source's
critical-temperature override fires only STRICTLY above 90 (`temp > critical_min`),
while the claim forces High already at >= 90. -/
theorem C1_counterexample :
    (aggregate_cross_domain_diagnosis
        ⟨"Normal", 99, .Low, "normal", none, none⟩
        ⟨"NORMAL_OPERATION", 95, .Low, "normal", none, none⟩
        ⟨"NORMAL_ELECTRICAL", 95, .Low, "normal", none, none⟩
        (some [(.Pump_DE, 90)])).severity = Sev.Low := by
  norm_num +decide [aggregate_cross_domain_diagnosis, corrCond1, corrCond2, corrCond3,
    tempOverride, tempTruthy, BEARING_TEMP_critical_min]

/-- Claim C1 (amended): for every triple of domain results and temperature map, the
integrated severity equals the maximum of the three domain severities under
Low < Medium < High, forced to High exactly when some stored temperature is nonzero and
STRICTLY greater than the 90 °C critical bound. -/
theorem C1_severity_amended (m h e : DomainResult) (td : Option (List (TLoc × ℚ))) :
    (aggregate_cross_domain_diagnosis m h e td).severity =
      (if tempOverride td then Sev.High
       else sevMax m.severity (sevMax h.severity e.severity)) := by
  cases hov : tempOverride td <;>
    simp [aggregate_cross_domain_diagnosis, hov, sevChain_eq_sevMax]

/-! ### Claim C2: integrated confidence -/

/-- Claim C2 (counterexample): with domain confidences 1, 1, 2 (all in [0,100]) and a
present temperature of 95 °C on a "normal" mechanical fault type, the temperature
adjustment is -10, the base is 4/3, and the code computes
min(95, int(4/3 - 10)) = -8: outside the claimed range [0, 95], and different from the
claimed round-based value min(95, round(4/3 - 10)) = -9. -/
theorem C2_counterexample :
    (aggregate_cross_domain_diagnosis
        ⟨"Normal", 1, .Low, "normal", none, none⟩
        ⟨"NORMAL_OPERATION", 1, .Low, "normal", none, none⟩
        ⟨"NORMAL_ELECTRICAL", 2, .Low, "normal", none, none⟩
        (some [(.Pump_DE, 95)])).confidence = -8 ∧
    min 95 (round ((4 : ℚ) / 3 + (-10))) = -9 ∧
    ¬ (0 : ℤ) ≤ -8 := by
  refine ⟨?_, ?_, by norm_num⟩
  · norm_num +decide [aggregate_cross_domain_diagnosis, corrCond1, corrCond2, corrCond3,
      tempOverride, tempTruthy, BEARING_TEMP_critical_min, BEARING_TEMP_delta_threshold,
      calculate_temperature_confidence_adjustment, tempAdjStep, get_temperature_status,
      dget, dtruthy, BEARING_TEMP_normal_max, BEARING_TEMP_elevated_max,
      BEARING_TEMP_warning_max, pytrunc]
    rw [show ⌈(-(26 / 3) : ℚ)⌉ = -8 from by rw [Int.ceil_eq_iff] <;> norm_num]
    norm_num
  · rw [round_eq, show ((4 : ℚ) / 3 + (-10) + 1 / 2) = -(49 / 6) by norm_num]
    rw [show ⌊(-(49 / 6) : ℚ)⌋ = -9 from by rw [Int.floor_eq_iff] <;> norm_num]
    norm_num

/-- Claim C2 (amended): for every triple of domain results and temperature map, the
integrated confidence equals min(95, trunc(mean of the strictly positive domain
confidences + total correlation-and-temperature bonus)) where trunc is Python int()
truncation toward zero - not round - and it always lies in [-10, 95] (not [0, 95]: the
lower end is reached when all confidences are 0 and the temperature adjustment is -10). -/
theorem C2_confidence_amended (m h e : DomainResult) (td : Option (List (TLoc × ℚ))) :
    (aggregate_cross_domain_diagnosis m h e td).confidence =
      min 95 (pytrunc (aggBase m h e + (aggBonus m h e td : ℚ))) ∧
    (-10 : ℤ) ≤ (aggregate_cross_domain_diagnosis m h e td).confidence ∧
    (aggregate_cross_domain_diagnosis m h e td).confidence ≤ 95 := by
  have hconf : (aggregate_cross_domain_diagnosis m h e td).confidence =
      min 95 (pytrunc (aggBase m h e + (aggBonus m h e td : ℚ))) := by
    cases td with
    | none =>
      cases hc1 : corrCond1 m h e <;> cases hc2 : corrCond2 m h e <;>
        cases hc3 : corrCond3 m h e <;>
        simp [aggregate_cross_domain_diagnosis, aggBase, aggBonus, tempTruthy,
          hc1, hc2, hc3]
    | some l =>
      cases l with
      | nil =>
        cases hc1 : corrCond1 m h e <;> cases hc2 : corrCond2 m h e <;>
          cases hc3 : corrCond3 m h e <;>
          simp [aggregate_cross_domain_diagnosis, aggBase, aggBonus, tempTruthy,
            hc1, hc2, hc3]
      | cons x xs =>
        cases hc1 : corrCond1 m h e <;> cases hc2 : corrCond2 m h e <;>
          cases hc3 : corrCond3 m h e <;>
          simp [aggregate_cross_domain_diagnosis, aggBase, aggBonus, tempTruthy,
            hc1, hc2, hc3, add_assoc]
  refine ⟨hconf, ?_, ?_⟩
  · rw [hconf]
    have hb : (0 : ℚ) ≤ aggBase m h e := aggBase_nonneg m h e
    have hbonus : (-10 : ℤ) ≤ aggBonus m h e td := neg_ten_le_aggBonus m h e td
    have hsum : (-10 : ℚ) ≤ aggBase m h e + (aggBonus m h e td : ℚ) := by
      have hcast : ((-10 : ℤ) : ℚ) ≤ (aggBonus m h e td : ℚ) := by exact_mod_cast hbonus
      push_cast at hcast
      linarith
    exact le_min (by norm_num) (neg_ten_le_pytrunc hsum)
  · rw [hconf]
    exact min_le_left _ _

/-! ### Claim C7: correlation rules, last match wins the label -/

/-- Claim C7: the three correlation rules are evaluated independently; every matching
rule adds its bonus (+15, +20, +10) to the summed correlation bonus and appends its
note, while the displayed top-level label is that of the LAST matching rule in
evaluation order, staying at the sentinel when none matches.  (The bonus and notes
conjuncts are stated for a missing temperature map so that the correlation contribution
is isolated.) -/
theorem C7_correlation_rules (m h e : DomainResult) (td : Option (List (TLoc × ℚ))) :
    (aggregate_cross_domain_diagnosis m h e td).diagnosis =
      (if corrCond3 m h e then corrLabel3
       else if corrCond2 m h e then corrLabel2
       else if corrCond1 m h e then corrLabel1
       else noCorrLabel) ∧
    (aggregate_cross_domain_diagnosis m h e none).confidence =
      min 95 (pytrunc (aggBase m h e +
        (((if corrCond1 m h e then (15 : ℤ) else 0) +
          (if corrCond2 m h e then (20 : ℤ) else 0) +
          (if corrCond3 m h e then (10 : ℤ) else 0) : ℤ) : ℚ))) ∧
    (aggregate_cross_domain_diagnosis m h e none).correlation_notes =
      (if corrCond1 m h e = false ∧ corrCond2 m h e = false ∧ corrCond3 m h e = false then
        [noCorrNote]
       else
        (if corrCond1 m h e then [corrNote1] else []) ++
          (if corrCond2 m h e then [corrNote2] else []) ++
          (if corrCond3 m h e then [corrNote3] else [])) := by
  refine ⟨?_, ?_, ?_⟩ <;>
  · cases hc1 : corrCond1 m h e <;> cases hc2 : corrCond2 m h e <;>
      cases hc3 : corrCond3 m h e <;>
      simp [aggregate_cross_domain_diagnosis, aggBase, tempOverride, tempTruthy,
        hc1, hc2, hc3]

/-! ### Claim C9: champion selection -/

/-- The Python `max` fold returns an entry of the list; every entry strictly before it
has a strictly smaller value (ties keep the earlier winner) and no entry anywhere has a
larger value. -/
theorem pymaxKey_split {α : Type} (tl : List (α × ℚ)) : ∀ hd : α × ℚ,
    ∃ pre suf, hd :: tl = pre ++ pymaxKey hd tl :: suf ∧
      (∀ q ∈ pre, q.2 < (pymaxKey hd tl).2) ∧
      (∀ q ∈ hd :: tl, q.2 ≤ (pymaxKey hd tl).2) := by
  induction tl with
  | nil =>
    intro hd
    refine ⟨[], [], rfl, by simp, ?_⟩
    intro q hq
    rw [List.mem_singleton.mp hq]
    exact le_refl _
  | cons x rest ih =>
    intro hd
    by_cases hcmp : hd.2 < x.2
    · have hfold : pymaxKey hd (x :: rest) = pymaxKey x rest := by
        show pymaxKey (if hd.2 < x.2 then x else hd) rest = pymaxKey x rest
        rw [if_pos hcmp]
      obtain ⟨pre, suf, heq, hpre, hall⟩ := ih x
      have hxle : x.2 ≤ (pymaxKey x rest).2 := hall x (List.mem_cons_self x rest)
      refine ⟨hd :: pre, suf, ?_, ?_, ?_⟩
      · rw [hfold, List.cons_append]
        exact congrArg (hd :: ·) heq
      · intro q hq
        rw [hfold]
        rcases List.mem_cons.mp hq with hq | hq
        · rw [hq]; exact lt_of_lt_of_le hcmp hxle
        · exact hpre q hq
      · intro q hq
        rw [hfold]
        rcases List.mem_cons.mp hq with hq | hq
        · rw [hq]; exact le_of_lt (lt_of_lt_of_le hcmp hxle)
        · exact hall q hq
    · have hfold : pymaxKey hd (x :: rest) = pymaxKey hd rest := by
        show pymaxKey (if hd.2 < x.2 then x else hd) rest = pymaxKey hd rest
        rw [if_neg hcmp]
      have hxle : x.2 ≤ hd.2 := not_lt.mp hcmp
      obtain ⟨pre, suf, heq, hpre, hall⟩ := ih hd
      have hhdle : hd.2 ≤ (pymaxKey hd rest).2 := hall hd (List.mem_cons_self hd rest)
      cases pre with
      | nil =>
        rw [List.nil_append] at heq
        have hhd : hd = pymaxKey hd rest := (List.cons.injEq _ _ _ _).mp heq |>.1
        have hsuf : rest = suf := (List.cons.injEq _ _ _ _).mp heq |>.2
        refine ⟨[], x :: suf, ?_, by simp, ?_⟩
        · rw [hfold, List.nil_append, ← hhd, hsuf]
        · intro q hq
          rw [hfold]
          rcases List.mem_cons.mp hq with hq | hq
          · rw [hq]; exact hhdle
          · rcases List.mem_cons.mp hq with hq | hq
            · rw [hq]; exact le_trans hxle hhdle
            · exact hall q (List.mem_cons_of_mem hd hq)
      | cons p0 pre2 =>
        rw [List.cons_append] at heq
        have hp0 : p0 = hd := ((List.cons.injEq _ _ _ _).mp heq |>.1).symm
        have hrest : rest = pre2 ++ pymaxKey hd rest :: suf :=
          (List.cons.injEq _ _ _ _).mp heq |>.2
        have hhdlt : hd.2 < (pymaxKey hd rest).2 := by
          have := hpre p0 (List.mem_cons_self p0 pre2)
          rwa [hp0] at this
        refine ⟨hd :: x :: pre2, suf, ?_, ?_, ?_⟩
        · rw [hfold]
          simp only [List.cons_append]
          rw [← hrest]
        · intro q hq
          rw [hfold]
          rcases List.mem_cons.mp hq with hq | hq
          · rw [hq]; exact hhdlt
          · rcases List.mem_cons.mp hq with hq | hq
            · rw [hq]; exact lt_of_le_of_lt hxle hhdlt
            · exact hpre q (List.mem_cons_of_mem p0 hq)
        · intro q hq
          rw [hfold]
          rcases List.mem_cons.mp hq with hq | hq
          · rw [hq]; exact hhdle
          · rcases List.mem_cons.mp hq with hq | hq
            · rw [hq]; exact le_trans hxle hhdle
            · exact hall q (List.mem_cons_of_mem hd hq)

/-- Claim C9: on the 12-point map in canonical enumeration order with velocities given
by f, the champion selected by `max(vel_data, key=vel_data.get)` carries the velocity of
its point, no point has a larger velocity, and every point strictly before it in
canonical order has a strictly smaller velocity - so ties resolve to the first point in
canonical order. -/
theorem C9_champion_selection (f : Point → ℚ) :
    (championOf f).2 = f (championOf f).1 ∧
    ∃ pre suf, canonicalPoints.map (fun p => (p, f p)) = pre ++ championOf f :: suf ∧
      (∀ q ∈ pre, q.2 < (championOf f).2) ∧
      (∀ q ∈ canonicalPoints.map (fun p => (p, f p)), q.2 ≤ (championOf f).2) := by
  obtain ⟨pre, suf, heq, hpre, hall⟩ :=
    pymaxKey_split (α := Point)
      ((canonicalPoints.drop 1).map (fun p => (p, f p)))
      (⟨.Pump, .DE, .Horizontal⟩, f ⟨.Pump, .DE, .Horizontal⟩)
  have hchamp : championOf f =
      pymaxKey (⟨.Pump, .DE, .Horizontal⟩, f ⟨.Pump, .DE, .Horizontal⟩)
        ((canonicalPoints.drop 1).map (fun p => (p, f p))) := rfl
  have hlist : canonicalPoints.map (fun p => (p, f p)) =
      (⟨.Pump, .DE, .Horizontal⟩, f ⟨.Pump, .DE, .Horizontal⟩) ::
        (canonicalPoints.drop 1).map (fun p => (p, f p)) := rfl
  constructor
  · have hmem : championOf f ∈ canonicalPoints.map (fun p => (p, f p)) := by
      rw [hlist, heq, ← hchamp]
      exact List.mem_append_right pre (List.mem_cons_self _ _)
    obtain ⟨p, _, hp⟩ := List.mem_map.mp hmem
    rw [← hp]
  · exact ⟨pre, suf, by rw [hlist, heq, hchamp], by rw [hchamp]; exact hpre,
      by rw [hlist, hchamp]; exact hall⟩

end KKW
